import Mathlib

/-!
Verification of the comebacksunday backend core: the Follow/FollowRequest
state machine (`FollowService`, `FollowRequest.accept`), the per-resource
permission decisions (`permissions.py`), the temporal gate (`DateManager`)
and the feed window (`FeedViewSet.get_queryset`), shallowly embedded from
the Django source.

Time is modelled as minutes since the Unix epoch (1970-01-01 00:00 UTC,
a Thursday).  Python's floor division and nonnegative modulus on these
quantities coincide with Lean's Euclidean `Int` division for the positive
divisors used here.  A timezone with UTC offset of `h` hours turns instant
`t` into local minutes `t + h * 60`; the local calendar day number is
`local / 1440` and day `0` (1970-01-01) is a Thursday, so the ISO weekday
(Monday = 1 .. Sunday = 7) of a local time is `(local / 1440 + 3) % 7 + 1`.
-/

set_option maxRecDepth 8192

/-- Users are opaque identities (`ExtendedUser` rows), modelled by their id. -/
abbrev EUser := Nat

/-- The relationship store: the `Follow` and `FollowRequest` tables, each a
list of (follower, followee) rows keyed by the ordered pair. -/
structure RelState where
  follows : List (EUser × EUser)
  requests : List (EUser × EUser)
deriving DecidableEq, Repr

/-- Embeds `Follow.objects.filter(follower=a, followee=b).exists()`. -/
def existsFollow (s : RelState) (a b : EUser) : Bool :=
  s.follows.contains (a, b)

/-- Embeds `FollowRequest.objects.filter(follower=a, followee=b).exists()`. -/
def existsFollowRequest (s : RelState) (a b : EUser) : Bool :=
  s.requests.contains (a, b)

/-- Outcome of `FollowService.create_request`: normal return, or one of the
two service exceptions. -/
inductive CreateRequestResult where
  | ok
  | alreadyFollowing
  | alreadyRequested
deriving DecidableEq, Repr

/-- Embeds `FollowService.create_request(follower, followee)` (services.py lines
158-168): raise `AlreadyFollowingException` if a Follow row exists, else
raise `AlreadyRequestedException` if a FollowRequest row exists, else
create the FollowRequest row.  A raised exception aborts before any
mutation, so the store component of the result is unchanged on error. -/
def create_request (s : RelState) (follower followee : EUser) :
    CreateRequestResult × RelState :=
  if existsFollow s follower followee then
    (CreateRequestResult.alreadyFollowing, s)
  else if existsFollowRequest s follower followee then
    (CreateRequestResult.alreadyRequested, s)
  else
    (CreateRequestResult.ok,
      { s with requests := (follower, followee) :: s.requests })

/-- Embeds `FollowRequest.accept` (models.py lines 47-52): create the Follow row
for the request's pair, then delete the FollowRequest row (every row with
that composite primary key).  Modelled as a single state transition, since
the spec requires the two mutations to be atomic. -/
def accept (s : RelState) (follower followee : EUser) : RelState :=
  { follows := (follower, followee) :: s.follows,
    requests := s.requests.filter (fun p => p ≠ (follower, followee)) }

/-! ## DateManager (services.py lines 32-141)

Instants are minutes since 1970-01-01 00:00 UTC (a Thursday). -/

/-- Local minutes of instant `t` in the timezone at `utc_offset` hours:
`datetime.now(tz=timezone(timedelta(hours=utc_offset)))`. -/
def localMinutes (t : Int) (utc_offset : Int) : Int :=
  t + utc_offset * 60

/-- Python's `date.isoweekday()` of a local time in minutes: Monday = 1,
..., Sunday = 7.  Day 0 (1970-01-01) is a Thursday. -/
def isoweekday (localm : Int) : Int :=
  (localm / 1440 + 3) % 7 + 1

/-- Python's `datetime.weekday()` of a local time in minutes: Monday = 0,
..., Sunday = 6. -/
def weekdayPy (localm : Int) : Int :=
  (localm / 1440 + 3) % 7

/-- Embeds `DateManager._get_day_at(utc_offset)` at instant `t`: the ISO weekday
number at the timezone with the given UTC offset in hours. -/
def get_day_at (t : Int) (utc_offset : Int) : Int :=
  isoweekday (localMinutes t utc_offset)

/-- Embeds `DateManager.is_sunday()` at instant `t` (services.py lines 47-54):
true iff the ISO weekday is Sunday (7) at UTC+14 (Kiribati) or at UTC-12. -/
def is_sunday (t : Int) : Bool :=
  get_day_at t 14 == 7 || get_day_at t (-12) == 7

/-- Embeds `DateManager.Countdown`: days, hours, minutes left until the platform
is next open. -/
structure Countdown where
  days : Int
  hours : Int
  minutes : Int
deriving DecidableEq, Repr

/-- Embeds `Countdown.is_zero`. -/
def Countdown.is_zero (c : Countdown) : Bool :=
  c.days == 0 && c.hours == 0 && c.minutes == 0

/-- Midnight that starts the local calendar day containing local time
`localm`: `datetime(now.year, now.month, now.day, 0, 0, 0, tz)`, in local
minutes. -/
def beginningOfDay (localm : Int) : Int :=
  (localm / 1440) * 1440

/-- Embeds `DateManager.Countdown.to_next_sunday()` at instant `t` (services.py
lines 74-108).  If `is_sunday` holds, the zero countdown; otherwise take
Kiribati (UTC+14) local time, compute `7 - weekday()` days from the start
of the current local day, and decompose the difference to now into days,
hours and minutes (Python's `timedelta.days`, `seconds // 3600` and
`(seconds // 60) % 60`, here at minute granularity). -/
def to_next_sunday (t : Int) : Countdown :=
  if is_sunday t then
    ⟨0, 0, 0⟩
  else
    let kiribati_now := localMinutes t 14
    let kiritbati_days_until_sunday : Int := 7 - weekdayPy kiribati_now
    let kiribati_beginning_of_today := beginningOfDay kiribati_now
    let kiribati_beginning_of_next_sunday :=
      kiribati_beginning_of_today + kiritbati_days_until_sunday * 1440
    let timedelta_to_next_sunday :=
      kiribati_beginning_of_next_sunday - kiribati_now
    let countdown_days := timedelta_to_next_sunday / 1440
    let countdown_fraction_of_day :=
      timedelta_to_next_sunday - countdown_days * 1440
    ⟨countdown_days, countdown_fraction_of_day / 60,
      countdown_fraction_of_day % 60⟩

/-- Embeds `DateManager.last_sunday()` at instant `t` (services.py lines 121-141),
as the UTC instant of the aware datetime it returns.  If `is_sunday` holds,
the start of the current Kiribati day; otherwise that start minus
`weekday()` days. -/
def last_sunday (t : Int) : Int :=
  let kiribati_now := localMinutes t 14
  let kiribati_beginning_of_today := beginningOfDay kiribati_now
  if is_sunday t then
    kiribati_beginning_of_today - 14 * 60
  else
    let kiritbati_days_since_sunday : Int := weekdayPy kiribati_now
    (kiribati_beginning_of_today - kiritbati_days_since_sunday * 1440) - 14 * 60

/-! ## Posts and permissions (models.py, permissions.py) -/

/-- A `Post` row: author (`ExtendedUser`), content (max length 280), and
server-assigned creation instant (`auto_now_add`). -/
structure Post where
  author : EUser
  content : String
  datetime : Int
deriving DecidableEq, Repr

/-- Embeds `PostPermission.has_object_permission` (permissions.py lines 51-66).
`action` is `view.action`; `authenticated` is
`request.user and request.user.is_authenticated`; `u` is the
`ExtendedUser` of `request.user`; falling off the end of the Python
function returns `None`, which DRF treats as a denial. -/
def postPermission (action : String) (authenticated : Bool) (u : EUser)
    (obj : Post) (s : RelState) : Bool :=
  if action ∉ ["destroy", "retrieve"] then false
  else if !authenticated then false
  else
    let current_user_is_author := u == obj.author
    if action == "destroy" then current_user_is_author
    else if action == "retrieve" then
      current_user_is_author || existsFollow s u obj.author
    else false

/-- Embeds `FollowPermission.has_object_permission` (permissions.py lines 34-42);
the object is a Follow row given by its (follower, followee) pair. -/
def followPermission (action : String) (authenticated : Bool) (u : EUser)
    (obj_follower obj_followee : EUser) : Bool :=
  if action ∉ ["retrieve", "destroy"] then false
  else if !authenticated then false
  else if action == "retrieve" || action == "destroy" then
    u == obj_follower || u == obj_followee
  else false

/-- Embeds `FollowRequestPermission.has_object_permission` (permissions.py lines
16-26); the object is a FollowRequest row given by its pair. -/
def followRequestPermission (action : String) (authenticated : Bool)
    (u : EUser) (obj_follower obj_followee : EUser) : Bool :=
  if action ∉ ["retrieve", "destroy", "accept"] then false
  else if !authenticated then false
  else if action == "retrieve" || action == "destroy" then
    u == obj_follower || u == obj_followee
  else if action == "accept" then u == obj_followee
  else false

/-- Embeds `ExtendedUserPermission.has_object_permission` (permissions.py lines
75-86); the object is an `ExtendedUser`.  The Python `retrieve` branch
returns `current_user == obj or Follow.objects.filter(...)`, whose
queryset truthiness is its non-emptiness, i.e. `existsFollow`. -/
def extendedUserPermission (action : String) (authenticated : Bool)
    (u : EUser) (obj : EUser) (s : RelState) : Bool :=
  if action ∉ ["retrieve", "destroy", "update"] then false
  else if !authenticated then false
  else if action == "retrieve" then u == obj || existsFollow s u obj
  else if action == "destroy" || action == "update" then u == obj
  else false

/-! ## Post creation and feed (views/user_views.py, serializers.py) -/

/-- Embeds `PostSerializer` validity: `content` is the only writable field
(`author` is `read_only`, `datetime` is `auto_now_add`); it is a required
character field with `max_length=280` and blank disallowed. -/
def postDataValid (content : String) : Bool :=
  content.length != 0 && content.length ≤ 280

/-- Outcome of `PostViewSet.create`: 403 from the Sunday gate, 400 from
serializer validation, or 201 with the row created. -/
inductive CreatePostResult where
  | forbidden
  | invalid
  | created
deriving DecidableEq, Repr

/-- Embeds `PostViewSet.create` (user_views.py lines 30-50) at instant `t`:
reject with 403 unless `DateManager.is_sunday()`; validate the serializer
data; then save with `author` forced to the acting user's `ExtendedUser`.
`clientAuthor` stands for any author value the client may have supplied in
`request.data`; the serializer's `author` field is read-only, so it is
never consulted.  The created row's `datetime` is the current instant. -/
def post_create (t : Int) (actor : EUser) (content : String)
    (clientAuthor : Option EUser) (posts : List Post) :
    CreatePostResult × List Post :=
  if !is_sunday t then (CreatePostResult.forbidden, posts)
  else if !postDataValid content then (CreatePostResult.invalid, posts)
  else (CreatePostResult.created, ⟨actor, content, t⟩ :: posts)

/-- Embeds `PostViewSet.get_queryset` (user_views.py lines 60-69): the posts whose
author the current user follows, plus the user's own posts. -/
def post_queryset (s : RelState) (u : EUser) (posts : List Post) :
    List Post :=
  posts.filter (fun p => existsFollow s u p.author || p.author == u)

/-- Embeds `FeedViewSet.get_queryset` (user_views.py lines 80-91): the same
readable-posts filter, further filtered to `datetime >= last_sunday()`,
ordered by `-datetime` (creation instant descending). -/
def feed_queryset (s : RelState) (u : EUser) (posts : List Post)
    (t : Int) : List Post :=
  let readable :=
    posts.filter (fun p => existsFollow s u p.author || p.author == u)
  let feed := readable.filter (fun p => last_sunday t ≤ p.datetime)
  feed.mergeSort (fun p q => q.datetime ≤ p.datetime)

/-! ## Theorems -/

/-- C1: for every ordered pair of users, `create_request` fails with
`AlreadyFollowing` exactly when a Follow row exists, otherwise fails with
`AlreadyRequested` exactly when a FollowRequest row exists, and otherwise
succeeds; after a successful call the FollowRequest row exists and no
Follow row for the pair does. -/
theorem create_request_spec (s : RelState) (a b : EUser) :
    ((create_request s a b).1 = CreateRequestResult.alreadyFollowing ↔
      existsFollow s a b = true) ∧
    ((create_request s a b).1 = CreateRequestResult.alreadyRequested ↔
      (existsFollow s a b = false ∧ existsFollowRequest s a b = true)) ∧
    ((create_request s a b).1 = CreateRequestResult.ok →
      existsFollowRequest (create_request s a b).2 a b = true ∧
      existsFollow (create_request s a b).2 a b = false) := by
  by_cases h1 : existsFollow s a b <;>
    by_cases h2 : existsFollowRequest s a b <;>
      simp [create_request, existsFollow, existsFollowRequest, h1, h2] at * <;>
        simp_all [existsFollow, existsFollowRequest]

/-- C1 witness: from the empty store, `create_request 0 1` succeeds and
leaves a FollowRequest row but no Follow row for the pair (0, 1). -/
theorem create_request_spec_witness :
    existsFollowRequest (create_request ⟨[], []⟩ 0 1).2 0 1 = true ∧
    existsFollow (create_request ⟨[], []⟩ 0 1).2 0 1 = false :=
  (create_request_spec ⟨[], []⟩ 0 1).2.2 (by decide)

/-- C9: when `create_request` raises `AlreadyFollowingException` or
`AlreadyRequestedException`, the relationship store is unchanged: both
existence checks precede the single row creation. -/
theorem create_request_error_preserves_state (s : RelState) (a b : EUser)
    (h : (create_request s a b).1 ≠ CreateRequestResult.ok) :
    (create_request s a b).2 = s := by
  by_cases h1 : existsFollow s a b <;>
    by_cases h2 : existsFollowRequest s a b <;>
      simp_all [create_request]

/-- C9 witness: a failing call on a store that already holds Follow (0, 1)
returns that store unchanged. -/
theorem create_request_error_preserves_state_witness :
    (create_request ⟨[(0, 1)], []⟩ 0 1).2 = ⟨[(0, 1)], []⟩ :=
  create_request_error_preserves_state ⟨[(0, 1)], []⟩ 0 1 (by decide)

/-- C2: accepting a pending FollowRequest (a, b) in one atomic transition
yields a store where the Follow row (a, b) exists and the FollowRequest
row does not. -/
theorem accept_spec (s : RelState) (a b : EUser)
    (h : existsFollowRequest s a b = true) :
    existsFollow (accept s a b) a b = true ∧
    existsFollowRequest (accept s a b) a b = false := by
  constructor
  · simp [existsFollow, accept]
  · simp [existsFollowRequest, accept, List.mem_filter]

/-- C2 witness: accepting the pending request (0, 1) from a store holding
only that request yields Follow (0, 1) and no remaining request. -/
theorem accept_spec_witness :
    existsFollow (accept ⟨[], [(0, 1)]⟩ 0 1) 0 1 = true ∧
    existsFollowRequest (accept ⟨[], [(0, 1)]⟩ 0 1) 0 1 = false :=
  accept_spec ⟨[], [(0, 1)]⟩ 0 1 (by decide)

/-- C3: for an authenticated user, the Post `retrieve` decision (both the
object-level permission and the queryset it is paired with) allows exactly
when the user authored the post or follows its author. -/
theorem post_read_spec (s : RelState) (u : EUser) (p : Post)
    (posts : List Post) :
    (postPermission "retrieve" true u p s = true ↔
      (u = p.author ∨ existsFollow s u p.author = true)) ∧
    (p ∈ post_queryset s u posts ↔
      (p ∈ posts ∧ (u = p.author ∨ existsFollow s u p.author = true))) := by
  constructor
  · rw [postPermission, if_neg (by simp)]
    simp
  · simp [post_queryset, List.mem_filter]
    intro _
    constructor
    · rintro (h | h)
      · exact Or.inr h
      · exact Or.inl h.symm
    · rintro (h | h)
      · exact Or.inr h.symm
      · exact Or.inl h

/-- C4: with valid serializer data, post creation succeeds exactly when
`DateManager.is_sunday()` holds; when the gate is closed the request is
rejected for every content and client-supplied author, leaving the posts
unchanged; and a created row's author is the acting user (with the
server-assigned timestamp), never the client-supplied author. -/
theorem post_create_gate (t : Int) (actor : EUser) (content : String)
    (clientAuthor : Option EUser) (posts : List Post)
    (hv : postDataValid content = true) :
    ((post_create t actor content clientAuthor posts).1 =
        CreatePostResult.created ↔ is_sunday t = true) ∧
    (∀ (c : String) (ca : Option EUser), is_sunday t = false →
      post_create t actor c ca posts = (CreatePostResult.forbidden, posts)) ∧
    (is_sunday t = true →
      (post_create t actor content clientAuthor posts).2 =
        { author := actor, content := content, datetime := t } :: posts) := by
  by_cases hs : is_sunday t <;> simp_all [post_create]

/-- C4 witness: at instant 4320 (Sunday 00:00 UTC+14 on 1970-01-04, gate
open) user 0 creating a valid post with a client-supplied author 5 gets a
row authored by user 0. -/
theorem post_create_gate_witness :
    ((post_create 4320 0 "hi" (some 5) []).1 =
        CreatePostResult.created ↔ is_sunday 4320 = true) ∧
    (∀ (c : String) (ca : Option EUser), is_sunday 4320 = false →
      post_create 4320 0 c ca [] = (CreatePostResult.forbidden, [])) ∧
    (is_sunday 4320 = true →
      (post_create 4320 0 "hi" (some 5) []).2 =
        [{ author := 0, content := "hi", datetime := 4320 }]) :=
  post_create_gate 4320 0 "hi" (some 5) [] (by decide)

/-- The Post `retrieve` permission decision equals the Boolean filter used
by the post and feed querysets. -/
theorem retrieve_decision_eq (s : RelState) (u : EUser) (p : Post) :
    (postPermission "retrieve" true u p s = true) ↔
      ((existsFollow s u p.author || p.author == u) = true) := by
  rw [postPermission, if_neg (by simp)]
  simp
  tauto

/-- C5: the feed for user `u` contains exactly the posts `u` may read
under the Post/read rule whose creation instant is at or after
`last_sunday()`, and it is ordered by creation instant descending. -/
theorem feed_spec (s : RelState) (u : EUser) (posts : List Post)
    (t : Int) :
    (∀ p : Post, p ∈ feed_queryset s u posts t ↔
      (p ∈ posts ∧ postPermission "retrieve" true u p s = true ∧
        last_sunday t ≤ p.datetime)) ∧
    (feed_queryset s u posts t).Pairwise
      (fun p q => q.datetime ≤ p.datetime) := by
  constructor
  · intro p
    simp only [feed_queryset, List.mem_mergeSort, List.mem_filter,
      retrieve_decision_eq, decide_eq_true_eq, and_assoc]
  · simp only [feed_queryset]
    refine List.Pairwise.imp ?_ (List.sorted_mergeSort ?_ ?_ _)
    · intro a b hab
      simpa using hab
    · intro a b c hab hbc
      simp only [decide_eq_true_eq] at *
      omega
    · intro a b
      simp only [Bool.or_eq_true, decide_eq_true_eq]
      exact Int.le_total b.datetime a.datetime

/-- C6 (bug): at instant 4980 (Sunday 1970-01-04 11:00 UTC) the instant
falls on Sunday at UTC offset 0, yet `is_sunday` returns false: checking
only weekday-at-UTC+14 and weekday-at-UTC-12 misses the two hours per week
(UTC Sunday 10:00-12:00) when Sunday holds only at intermediate offsets. -/
theorem is_sunday_gap :
    is_sunday 4980 = false ∧ get_day_at 4980 0 = 7 := by decide

/-- C7 (bug): at instant 3420 (Saturday 23:00 at UTC+14, gate closed) the
gate opens 60 minutes later (instant 3480 is Sunday at UTC+14), but
`to_next_sunday` reports 1 day, 1 hour, 0 minutes: `7 - weekday()` targets
the start of the next Monday, one day past the next Sunday. -/
theorem to_next_sunday_bug :
    is_sunday 3420 = false ∧
    to_next_sunday 3420 = { days := 1, hours := 1, minutes := 0 } ∧
    is_sunday 3480 = true ∧ get_day_at 3480 14 = 7 := by decide

/-- C8 (bug): at instant 8520 (Wednesday noon at UTC+14) `last_sunday`
returns instant 4920, whose UTC+14 weekday is Monday (1), not Sunday:
subtracting `weekday()` days (Monday = 0) reaches the most recent Monday
midnight, one day after the most recent Sunday midnight (instant 3480). -/
theorem last_sunday_bug :
    last_sunday 8520 = 4920 ∧ get_day_at 4920 14 = 1 ∧
    get_day_at 4920 14 ≠ 7 := by decide

/-- C10: for each permission class separately, every view action outside
that class's supported set is denied regardless of actor and object:
PostPermission outside destroy/retrieve, FollowPermission outside
retrieve/destroy, FollowRequestPermission outside retrieve/destroy/accept,
and ExtendedUserPermission outside retrieve/destroy/update. -/
theorem unsupported_action_denied (a : String) (auth : Bool) (u : EUser)
    (p : Post) (s : RelState) (f1 f2 g1 g2 obj : EUser) :
    (a ∉ ["destroy", "retrieve"] → postPermission a auth u p s = false) ∧
    (a ∉ ["retrieve", "destroy"] → followPermission a auth u f1 f2 = false) ∧
    (a ∉ ["retrieve", "destroy", "accept"] →
      followRequestPermission a auth u g1 g2 = false) ∧
    (a ∉ ["retrieve", "destroy", "update"] →
      extendedUserPermission a auth u obj s = false) := by
  refine ⟨fun h1 => ?_, fun h2 => ?_, fun h3 => ?_, fun h4 => ?_⟩
  · rw [postPermission, if_pos h1]
  · rw [followPermission, if_pos h2]
  · rw [followRequestPermission, if_pos h3]
  · rw [extendedUserPermission, if_pos h4]

/-- C10 witness: `update` is denied by PostPermission even to the post's
author, `accept` is denied by FollowPermission to the follower, `update`
is denied by FollowRequestPermission to the follower, and `accept` is
denied by ExtendedUserPermission to the profile's owner. -/
theorem unsupported_action_denied_witness :
    postPermission "update" true 0 { author := 0, content := "x", datetime := 0 }
      ⟨[], []⟩ = false ∧
    followPermission "accept" true 0 0 1 = false ∧
    followRequestPermission "update" true 0 0 1 = false ∧
    extendedUserPermission "accept" true 0 0 ⟨[], []⟩ = false :=
  ⟨(unsupported_action_denied "update" true 0
      { author := 0, content := "x", datetime := 0 } ⟨[], []⟩ 0 1 0 1 0).1
      (by simp),
   (unsupported_action_denied "accept" true 0
      { author := 0, content := "x", datetime := 0 } ⟨[], []⟩ 0 1 0 1 0).2.1
      (by simp),
   (unsupported_action_denied "update" true 0
      { author := 0, content := "x", datetime := 0 } ⟨[], []⟩ 0 1 0 1 0).2.2.1
      (by simp),
   (unsupported_action_denied "accept" true 0
      { author := 0, content := "x", datetime := 0 } ⟨[], []⟩ 0 1 0 1 0).2.2.2
      (by simp)⟩
